import Mathlib

/-!
Shallow embedding of the DNSSEC chain-validation engine of `dnsviz-tui`
(`src/dnsviz_tui/models/chain.py`, `src/dnsviz_tui/dns/records.py`,
`src/dnsviz_tui/dns/resolver.py`, `src/dnsviz_tui/dns/dnssec.py`,
`src/dnsviz_tui/export/json_export.py`).

Conventions of the embedding:
* Python `datetime` instants are modelled as `Int` (seconds since the Unix
  epoch); the comparisons `>` / `<` on datetimes are the same comparisons
  on `Int`.
* Byte strings are `List Nat` (each entry a byte value `0..255`).
* The source stores DNSKEY public keys and RRSIG signatures base64-encoded
  (`str`); the validator immediately base64-decodes before hashing, so the
  model carries the raw bytes and the JSON exporter takes the base64
  encoder as an explicit function parameter.
* The cryptographic hash functions (`hashlib.sha1/sha256/sha384`,
  producing lowercase hex strings) are taken as explicit function
  parameters (`HashFuns`); the engine only ever compares their output
  strings case-insensitively.
* Network effects are factored out: the validator receives the outcome of
  `resolver.query_zone_chain` as an `Except` value (an exception message,
  or the zone list plus elapsed milliseconds), and the consistency checker
  receives the nameserver discovery and the per-server UDP query as
  function parameters.
* Python `str.upper()` on the (ASCII hex) strings involved is modelled by
  mapping `Char.toUpper` over the characters.
-/

/-- `ValidationStatus` from `models/chain.py`. -/
inductive ValidationStatus where
  | SECURE
  | INSECURE
  | BOGUS
  | INDETERMINATE
  | UNKNOWN
deriving DecidableEq, Repr, Inhabited

/-- The `.value` string of each enum member (`"secure"`, …). -/
def ValidationStatus.value : ValidationStatus → String
  | .SECURE => "secure"
  | .INSECURE => "insecure"
  | .BOGUS => "bogus"
  | .INDETERMINATE => "indeterminate"
  | .UNKNOWN => "unknown"

/-- The `color` property of `ValidationStatus`. -/
def ValidationStatus.color : ValidationStatus → String
  | .SECURE => "green"
  | .INSECURE => "yellow"
  | .BOGUS => "red"
  | .INDETERMINATE => "orange1"
  | .UNKNOWN => "dim"

/-- The `symbol` property of `ValidationStatus`. -/
def ValidationStatus.symbol : ValidationStatus → String
  | .SECURE => "✓"
  | .INSECURE => "○"
  | .BOGUS => "✗"
  | .INDETERMINATE => "?"
  | .UNKNOWN => "·"

/-- `DNSKeyInfo` from `models/chain.py`.  `key_data` holds the decoded
public-key bytes (the source keeps their base64 encoding). -/
structure DNSKeyInfo where
  flags : Nat
  protocol : Nat
  algorithm : Nat
  algorithm_name : String
  key_tag : Nat
  key_data : List Nat
  key_length : Int
deriving DecidableEq, Repr, Inhabited

/-- `DNSKeyInfo.is_ksk`: the SEP bit (`flags & 0x0001`) is set. -/
def DNSKeyInfo.is_ksk (k : DNSKeyInfo) : Bool := k.flags &&& 1 == 1

/-- `DNSKeyInfo.is_zsk`: the SEP bit is clear. -/
def DNSKeyInfo.is_zsk (k : DNSKeyInfo) : Bool := k.flags &&& 1 == 0

/-- `DSInfo` from `models/chain.py`. -/
structure DSInfo where
  key_tag : Nat
  algorithm : Nat
  algorithm_name : String
  digest_type : Nat
  digest_type_name : String
  digest : String
  validates_key : Option Nat := none
deriving DecidableEq, Repr, Inhabited

/-- `RRSIGInfo` from `models/chain.py`.  `expiration`/`inception` are
UTC instants as epoch seconds; `signature` holds the raw bytes. -/
structure RRSIGInfo where
  type_covered : String
  algorithm : Nat
  algorithm_name : String
  labels : Nat
  original_ttl : Nat
  expiration : Int
  inception : Int
  key_tag : Nat
  signer_name : String
  signature : List Nat
  is_valid : Option Bool := none
  validation_error : Option String := none
deriving DecidableEq, Repr, Inhabited

/-- `RRSIGInfo.is_expired`: `datetime.utcnow() > self.expiration`.
The current instant is the explicit parameter `now`. -/
def RRSIGInfo.is_expired (r : RRSIGInfo) (now : Int) : Bool :=
  decide (now > r.expiration)

/-- `RRSIGInfo.is_not_yet_valid`: `datetime.utcnow() < self.inception`. -/
def RRSIGInfo.is_not_yet_valid (r : RRSIGInfo) (now : Int) : Bool :=
  decide (now < r.inception)

/-- `RRSIGInfo.days_until_expiry`: `(expiration - utcnow()).days`.
Python `timedelta.days` floors towards minus infinity, hence `Int.fdiv`. -/
def RRSIGInfo.days_until_expiry (r : RRSIGInfo) (now : Int) : Int :=
  (r.expiration - now).fdiv 86400

/-- `AdditionalRecord` from `models/chain.py`. -/
structure AdditionalRecord where
  record_type : String
  name : String
  value : String
  ttl : Nat
  is_signed : Bool := false
  rrsig : Option RRSIGInfo := none
deriving DecidableEq, Repr, Inhabited

/-- `ServerResponse` from `models/chain.py`. `response_time_ms` (a float
in the source) is carried as integral milliseconds; no claim inspects it. -/
structure ServerResponse where
  server_ip : String
  server_name : String
  responded : Bool := true
  error : Option String := none
  response_time_ms : Int := 0
  dnskey_tags : List Nat := []
  ds_tags : List Nat := []
  has_rrsig : Bool := false
deriving DecidableEq, Repr, Inhabited

/-- `ConsistencyResult` from `models/chain.py`. -/
structure ConsistencyResult where
  zone_name : String
  nameservers_queried : Nat := 0
  nameservers_responded : Nat := 0
  is_consistent : Bool := true
  issues : List String := []
  server_responses : List ServerResponse := []
deriving DecidableEq, Repr, Inhabited

/-- `ZoneInfo` from `models/chain.py`. -/
structure ZoneInfo where
  name : String
  parent : Option String := none
  status : ValidationStatus := .UNKNOWN
  status_reason : String := ""
  dnskeys : List DNSKeyInfo := []
  ds_records : List DSInfo := []
  rrsigs : List RRSIGInfo := []
  ds_validated : Bool := false
  dnskey_validated : Bool := false
  chain_complete : Bool := false
  additional_records : List AdditionalRecord := []
  consistency : Option ConsistencyResult := none
deriving DecidableEq, Repr, Inhabited

/-- `ZoneInfo.has_dnssec`: `len(self.dnskeys) > 0`. -/
def ZoneInfo.has_dnssec (z : ZoneInfo) : Bool := !z.dnskeys.isEmpty

/-- `ZoneInfo.get_key_by_tag`: first DNSKEY with the given key tag. -/
def ZoneInfo.get_key_by_tag (z : ZoneInfo) (tag : Nat) : Option DNSKeyInfo :=
  z.dnskeys.find? (fun k => k.key_tag == tag)

/-- `TrustChain` from `models/chain.py`.  `query_time` is an epoch
instant; `query_duration_ms` (a float in the source) is carried as `Int`. -/
structure TrustChain where
  target_domain : String
  query_time : Int := 0
  zones : List ZoneInfo := []
  overall_status : ValidationStatus := .UNKNOWN
  overall_reason : String := ""
  resolver_used : String := ""
  query_duration_ms : Int := 0
deriving DecidableEq, Repr, Inhabited

/-- `TrustChain.chain_path`: the zone names in order. -/
def TrustChain.chain_path (c : TrustChain) : List String :=
  c.zones.map (·.name)

/-! ## Zone hierarchy (`resolver.py`, `get_zone_hierarchy`) -/

/-- Python `domain.endswith('.')` (for a one-character suffix this is
exactly: the last character is `'.'`). -/
def endsWithDot (s : String) : Bool := s.data.getLast? == some '.'

/-- Python `s.rstrip('.')`: remove every trailing `'.'`. -/
def rstripDots (s : String) : String :=
  ⟨(s.data.reverse.dropWhile (fun c => c == '.')).reverse⟩

/-- Python `s.split('.')` (split on a one-character separator, keeping
empty pieces; `"".split('.') == [""]`). -/
def splitOnDot (s : String) : List String :=
  (s.data.foldr
    (fun c acc =>
      if c == '.' then [] :: acc
      else match acc with
        | [] => [[c]]
        | h :: t => (c :: h) :: t)
    [[]]).map (fun l => ⟨l⟩)

/-- `DNSResolver.get_zone_hierarchy` from `resolver.py`: normalise the
domain to trailing-dot form, split the dot-stripped form on `'.'`, then
emit `"."` followed by the progressively longer suffixes, skipping the
root and anything already emitted. -/
def get_zone_hierarchy (domain : String) : List String :=
  let domain := if endsWithDot domain then domain else domain ++ "."
  let parts := splitOnDot (rstripDots domain)
  (List.range parts.length).reverse.foldl
    (fun zones i =>
      let zone := String.intercalate "." (parts.drop i) ++ "."
      if zone ≠ "." ∧ zone ∉ zones then zones ++ [zone] else zones)
    ["."]

theorem string_data_append (s t : String) : (s ++ t).data = s.data ++ t.data := rfl

theorem endsWithDot_append_dot (s : String) : endsWithDot (s ++ ".") = true := by
  simp [endsWithDot, string_data_append]

theorem rstripDots_append_dot (s : String) : rstripDots (s ++ ".") = rstripDots s := by
  simp [rstripDots, string_data_append, List.dropWhile]

theorem get_zone_hierarchy_trailing_dot (d : String) :
    get_zone_hierarchy (d ++ ".") = get_zone_hierarchy d := by
  unfold get_zone_hierarchy
  rw [endsWithDot_append_dot]
  cases h : endsWithDot d <;> simp [h, rstripDots_append_dot]

/-- Claim C5: `get_zone_hierarchy` normalises the domain to trailing-dot
form (so appending a trailing dot never changes the result, and in
particular `"example.com"` and `"example.com."` yield the same hierarchy)
and returns `"."` followed by the progressively longer suffix zones ending
at the full domain, as witnessed on the spec's examples:
`"com"` yields `[".", "com."]` and `"www.example.co.uk"` yields
`[".", "uk.", "co.uk.", "example.co.uk.", "www.example.co.uk."]`. -/
theorem claim_C5_zone_hierarchy :
    (∀ d : String, get_zone_hierarchy (d ++ ".") = get_zone_hierarchy d) ∧
    get_zone_hierarchy "example.com" = get_zone_hierarchy "example.com." ∧
    get_zone_hierarchy "com" = [".", "com."] ∧
    get_zone_hierarchy "www.example.co.uk" =
      [".", "uk.", "co.uk.", "example.co.uk.", "www.example.co.uk."] := by
  refine ⟨get_zone_hierarchy_trailing_dot, ?_, by decide, by decide⟩
  exact (get_zone_hierarchy_trailing_dot "example.com").symm

/-! ## Record codec (`records.py`) -/

/-- `estimate_key_length` from `records.py`.  Python byte indexing
(`key_data[0]`, `key_data[1]`, `key_data[2]`) raises `IndexError` when
the key is too short; the model returns `none` exactly on the raising
paths and `some` of the computed bit length otherwise.  Subtractions are
over `Int` because the Python expressions can go negative. -/
def estimate_key_length (algorithm : Nat) (key_data : List Nat) : Option Int :=
  let key_len : Int := (key_data.length : Int) * 8
  if algorithm = 1 ∨ algorithm = 5 ∨ algorithm = 7 ∨ algorithm = 8 ∨ algorithm = 10 then
    match key_data with
    | [] => none
    | b0 :: rest =>
      if b0 = 0 then
        match rest with
        | b1 :: b2 :: _ =>
          some (((key_data.length : Int) - 3 - ((b1 <<< 8 ||| b2 : Nat) : Int)) * 8)
        | _ => none
      else
        some (((key_data.length : Int) - 1 - (b0 : Int)) * 8)
  else if algorithm = 13 then some 256
  else if algorithm = 14 then some 384
  else if algorithm = 15 then some 256
  else if algorithm = 16 then some 448
  else some key_len

theorem estimate_key_length_eq_none_iff (algorithm : Nat) (key_data : List Nat) :
    estimate_key_length algorithm key_data = none ↔
      ((algorithm = 1 ∨ algorithm = 5 ∨ algorithm = 7 ∨ algorithm = 8 ∨ algorithm = 10) ∧
       (key_data = [] ∨ (key_data.head? = some 0 ∧ key_data.length < 3))) := by
  by_cases h : algorithm = 1 ∨ algorithm = 5 ∨ algorithm = 7 ∨ algorithm = 8 ∨ algorithm = 10
  · match key_data with
    | [] => simp [estimate_key_length, h]
    | b0 :: rest =>
      by_cases hb : b0 = 0
      · match rest with
        | [] => simp [estimate_key_length, h, hb]
        | [b1] => simp [estimate_key_length, h, hb]
        | b1 :: b2 :: rest' => simp [estimate_key_length, h, hb]
      · simp [estimate_key_length, h, hb]
  · simp only [estimate_key_length, h, if_false]
    split_ifs <;> simp [h]

theorem estimate_key_length_rsa_direct (algorithm b0 : Nat) (rest : List Nat)
    (h : algorithm = 1 ∨ algorithm = 5 ∨ algorithm = 7 ∨ algorithm = 8 ∨ algorithm = 10)
    (hb : b0 ≠ 0) :
    estimate_key_length algorithm (b0 :: rest) =
      some ((((b0 :: rest).length : Int) - 1 - (b0 : Int)) * 8) := by
  simp [estimate_key_length, h, hb]

theorem estimate_key_length_rsa_wide (algorithm b1 b2 : Nat) (rest : List Nat)
    (h : algorithm = 1 ∨ algorithm = 5 ∨ algorithm = 7 ∨ algorithm = 8 ∨ algorithm = 10) :
    estimate_key_length algorithm (0 :: b1 :: b2 :: rest) =
      some ((((0 :: b1 :: b2 :: rest).length : Int) - 3 - ((b1 <<< 8 ||| b2 : Nat) : Int)) * 8) := by
  simp [estimate_key_length, h]

theorem estimate_key_length_fixed (key_data : List Nat) :
    estimate_key_length 13 key_data = some 256 ∧ estimate_key_length 14 key_data = some 384 ∧
    estimate_key_length 15 key_data = some 256 ∧ estimate_key_length 16 key_data = some 448 := by
  refine ⟨?_, ?_, ?_, ?_⟩ <;> simp [estimate_key_length]

theorem estimate_key_length_other (algorithm : Nat) (key_data : List Nat)
    (h : algorithm ∉ ([1, 5, 7, 8, 10, 13, 14, 15, 16] : List Nat)) :
    estimate_key_length algorithm key_data = some ((key_data.length : Int) * 8) := by
  simp only [List.mem_cons, List.mem_singleton, not_or] at h
  obtain ⟨h1, h5, h7, h8, h10, h13, h14, h15, h16, -⟩ := h
  simp [estimate_key_length, h1, h5, h7, h8, h10, h13, h14, h15, h16]

/-- Claim C8 (counterexample): the claim "`estimate_key_length` returns a
value without raising for every algorithm number and every public-key byte
string, including the empty string" is false: for an RSA-family algorithm
(here 8) the source evaluates `key_data[0]`, which raises `IndexError` on
the empty key (modelled as `none`). -/
theorem claim_C8_counterexample :
    ¬ (∀ (algorithm : Nat) (key_data : List Nat),
        (estimate_key_length algorithm key_data).isSome = true) :=
  fun h => absurd (h 8 []) (by decide)

/-- Claim C8 (amended): `estimate_key_length` returns a value for every
algorithm and key except exactly when the algorithm is RSA-family
(1, 5, 7, 8 or 10) and the key is too short for its exponent-length
prefix — empty, or starting with a `0` marker byte but shorter than three
bytes — in which case the byte indexing raises (`none`).  On all defined
inputs it computes as the claim states: `(key_bytes − 1 − exp_len) * 8`
for a one-byte exponent-length prefix, `(key_bytes − 3 − exp_len) * 8`
for the `0`-marked 16-bit big-endian prefix, the fixed lengths 256, 384,
256, 448 for algorithms 13, 14, 15, 16, and `len(key) * 8` for any other
algorithm. -/
theorem claim_C8_amended :
    (∀ (algorithm : Nat) (key_data : List Nat),
       estimate_key_length algorithm key_data = none ↔
         ((algorithm = 1 ∨ algorithm = 5 ∨ algorithm = 7 ∨ algorithm = 8 ∨ algorithm = 10) ∧
          (key_data = [] ∨ (key_data.head? = some 0 ∧ key_data.length < 3)))) ∧
    (∀ (algorithm b0 : Nat) (rest : List Nat),
       (algorithm = 1 ∨ algorithm = 5 ∨ algorithm = 7 ∨ algorithm = 8 ∨ algorithm = 10) →
       b0 ≠ 0 →
       estimate_key_length algorithm (b0 :: rest) =
         some ((((b0 :: rest).length : Int) - 1 - (b0 : Int)) * 8)) ∧
    (∀ (algorithm b1 b2 : Nat) (rest : List Nat),
       (algorithm = 1 ∨ algorithm = 5 ∨ algorithm = 7 ∨ algorithm = 8 ∨ algorithm = 10) →
       estimate_key_length algorithm (0 :: b1 :: b2 :: rest) =
         some ((((0 :: b1 :: b2 :: rest).length : Int) - 3 - ((b1 <<< 8 ||| b2 : Nat) : Int)) * 8)) ∧
    (∀ key_data : List Nat,
       estimate_key_length 13 key_data = some 256 ∧ estimate_key_length 14 key_data = some 384 ∧
       estimate_key_length 15 key_data = some 256 ∧ estimate_key_length 16 key_data = some 448) ∧
    (∀ (algorithm : Nat) (key_data : List Nat),
       algorithm ∉ ([1, 5, 7, 8, 10, 13, 14, 15, 16] : List Nat) →
       estimate_key_length algorithm key_data = some ((key_data.length : Int) * 8)) :=
  ⟨estimate_key_length_eq_none_iff, estimate_key_length_rsa_direct,
   estimate_key_length_rsa_wide, estimate_key_length_fixed, estimate_key_length_other⟩

/-- Claim C8 (witness): concrete instances of the amended claim. -/
theorem claim_C8_amended_witness :
    estimate_key_length 8 [] = none ∧
    estimate_key_length 8 [3, 1, 2, 3] = some 0 ∧
    estimate_key_length 8 [0, 0, 1, 9] = some 0 ∧
    estimate_key_length 13 [1] = some 256 ∧
    estimate_key_length 2 [1, 2] = some 16 := by
  refine ⟨(claim_C8_amended.1 8 []).mpr (by decide), ?_, ?_, ?_, ?_⟩
  · have h := claim_C8_amended.2.1 8 3 [1, 2, 3] (by decide) (by decide)
    simpa using h
  · have h := claim_C8_amended.2.2.1 8 0 1 [9] (by decide)
    simpa using h
  · exact (claim_C8_amended.2.2.2.1 [1]).1
  · have h := claim_C8_amended.2.2.2.2 2 [1, 2] (by decide)
    simpa using h

/-! ## Claim C3: RRSIG validity-window boundaries -/

/-- A DNSKEY-covering RRSIG whose inception and expiration both equal the
instant 100, used to exhibit the boundary behaviour. -/
def rrsigAtBoundary : RRSIGInfo :=
  { type_covered := "DNSKEY", algorithm := 8, algorithm_name := "RSA/SHA-256",
    labels := 0, original_ttl := 3600, expiration := 100, inception := 100,
    key_tag := 20326, signer_name := ".", signature := [] }

/-- Claim C3 (counterexample): the claim says an RRSIG whose expiration
equals the current instant is classified as expired; but `is_expired` is
`now > expiration` (strict), so at `expiration = now` it is `false`. -/
theorem claim_C3_counterexample :
    ¬ (∀ (r : RRSIGInfo) (now : Int),
        (r.expiration = now → r.is_expired now = true) ∧
        (r.inception = now → r.is_not_yet_valid now = false)) :=
  fun h => absurd ((h rrsigAtBoundary 100).1 rfl) (by decide)

/-- Claim C3 (amended): both window boundaries are inclusive on the valid
side: an RRSIG whose expiration equals the current instant is *not yet*
expired (`is_expired` is the strict `now > expiration`), and an RRSIG
whose inception equals the current instant is already valid
(`is_not_yet_valid` is the strict `now < inception`). -/
theorem claim_C3_amended (r : RRSIGInfo) (now : Int) :
    (r.expiration = now → r.is_expired now = false) ∧
    (r.inception = now → r.is_not_yet_valid now = false) := by
  constructor
  · intro h
    simp [RRSIGInfo.is_expired, h]
  · intro h
    simp [RRSIGInfo.is_not_yet_valid, h]

/-- Claim C3 (witness): the amended claim at the concrete boundary RRSIG. -/
theorem claim_C3_amended_witness :
    rrsigAtBoundary.is_expired 100 = false ∧
    rrsigAtBoundary.is_not_yet_valid 100 = false :=
  ⟨(claim_C3_amended rrsigAtBoundary 100).1 rfl,
   (claim_C3_amended rrsigAtBoundary 100).2 rfl⟩

/-! ## DNSSEC validator (`dnssec.py`) -/

/-- Python `str.upper()` restricted to the ASCII hex strings the engine
compares. -/
def asciiUpper (s : String) : String := ⟨s.data.map Char.toUpper⟩

/-- `dns.name.from_text(name).to_wire()` for the absolute (trailing-dot)
zone names used by the engine: each label length-prefixed, terminated by
a zero octet (the root `"."` is the single octet `0`). -/
def nameToWire (name : String) : List Nat :=
  ((splitOnDot name).filter (fun l => l ≠ "")).foldr
    (fun l acc => l.length :: (l.data.map Char.toNat) ++ acc) [0]

/-- Big-endian `int.to_bytes(2, 'big')` for the 16-bit DNSKEY flags. -/
def toBytes2 (n : Nat) : List Nat := [n / 256 % 256, n % 256]

/-- The three hash functions of `hashlib` used by `_compute_ds_digest`,
each producing a lowercase-hex digest string; the engine treats them as
black boxes and only compares their outputs case-insensitively. -/
structure HashFuns where
  sha1 : List Nat → String
  sha256 : List Nat → String
  sha384 : List Nat → String

/-- One entry of `ROOT_DS_RECORDS` in `dnssec.py`. -/
structure RootAnchor where
  key_tag : Nat
  algorithm : Nat
  digest_type : Nat
  digest : String
deriving DecidableEq, Repr

/-- `ROOT_DS_RECORDS`: the compiled-in IANA root trust anchors
(KSK-2017 and KSK-2024). -/
def ROOT_DS_RECORDS : List RootAnchor :=
  [{ key_tag := 20326, algorithm := 8, digest_type := 2,
     digest := "E06D44B80B8F1D39A95C0B0D7C65D08458E880409BBC683457104237C7F8EC8D" },
   { key_tag := 38696, algorithm := 8, digest_type := 2,
     digest := "683D2D0ACB8C9B712A1948B27F741219298D0A450D612C483AF444A4C0FB2B16" }]

/-- `DNSSECValidator._compute_ds_digest`: hash the owner-name wire form
concatenated with the DNSKEY RDATA (flags, protocol, algorithm, key
bytes); digest type 1 is SHA-1, 2 is SHA-256, 4 is SHA-384, anything else
yields the empty string.  The source hex-encodes and upper-cases the
digest; the hex encoding lives inside the `HashFuns` parameter. -/
def computeDsDigest (H : HashFuns) (zone_name : String) (dnskey : DNSKeyInfo)
    (digest_type : Nat) : String :=
  let name_wire := nameToWire zone_name
  let rdata := toBytes2 dnskey.flags ++
    [dnskey.protocol % 256, dnskey.algorithm % 256] ++ dnskey.key_data
  let data := name_wire ++ rdata
  if digest_type = 1 then asciiUpper (H.sha1 data)
  else if digest_type = 2 then asciiUpper (H.sha256 data)
  else if digest_type = 4 then asciiUpper (H.sha384 data)
  else ""

/-- The inner key scan of `_validate_ds_to_dnskey` for one DS record:
the first candidate key whose key tag and algorithm equal the DS's and
whose computed digest matches the DS digest case-insensitively; returns
its key tag. -/
def findMatchingKey (H : HashFuns) (zone_name : String) (ksks : List DNSKeyInfo)
    (ds : DSInfo) : Option Nat :=
  (ksks.find? (fun key =>
      key.key_tag == ds.key_tag && key.algorithm == ds.algorithm &&
      asciiUpper (computeDsDigest H zone_name key ds.digest_type) ==
        asciiUpper ds.digest)).map (·.key_tag)

/-- The DS loop of `_validate_ds_to_dnskey`: returns the updated DS
records (with `validates_key` set on matches), the list of validated key
tags in match order, and the failure messages for unmatched DS records. -/
def dsMatchLoop (H : HashFuns) (zone_name : String) (ksks allKeys : List DNSKeyInfo) :
    List DSInfo → List DSInfo × List Nat × List String
  | [] => ([], [], [])
  | ds :: rest =>
    let (dss, tags, fails) := dsMatchLoop H zone_name ksks allKeys rest
    match findMatchingKey H zone_name ksks ds with
    | some t => ({ ds with validates_key := some t } :: dss, t :: tags, fails)
    | none =>
      let msg :=
        if allKeys.any (fun k => k.key_tag == ds.key_tag) then
          "DS tag=" ++ toString ds.key_tag ++ " digest mismatch"
        else
          "DS tag=" ++ toString ds.key_tag ++ " no matching DNSKEY"
      (ds :: dss, tags, msg :: fails)

/-- Python `list(set(...))` on the validated key tags.  CPython's set
iteration order is unspecified; this model keeps first occurrences.  The
choice only influences which of several validated tags is reported and
remembered, never whether validation succeeds. -/
def dedupKeepFirst (l : List Nat) : List Nat :=
  l.foldl (fun acc a => if a ∈ acc then acc else acc ++ [a]) []

/-- `DNSSECValidator._validate_ds_to_dnskey`.  Returns the updated DS
record list (the source mutates `zone.ds_records` in place) together with
the `(is_valid, reason, matching_key_tag)` triple of the source. -/
def validate_ds_to_dnskey (H : HashFuns) (zone : ZoneInfo) (ds_records : List DSInfo) :
    List DSInfo × Bool × String × Option Nat :=
  if ds_records.isEmpty then
    (ds_records, false, "No DS records in parent zone", none)
  else if zone.dnskeys.isEmpty then
    (ds_records, false, "No DNSKEY records in zone", none)
  else
    let ksks0 := zone.dnskeys.filter (·.is_ksk)
    let ksks := if ksks0.isEmpty then zone.dnskeys else ksks0
    let (dss, validated_tags, failed_ds) :=
      dsMatchLoop H zone.name ksks zone.dnskeys ds_records
    if !validated_tags.isEmpty then
      let unique_tags := dedupKeepFirst validated_tags
      let reason :=
        if 1 < ds_records.length then
          "DS validates DNSKEY(s) " ++ toString unique_tags ++ " (" ++
            toString validated_tags.length ++ "/" ++ toString ds_records.length ++
            " DS records)"
        else
          "DS validates DNSKEY " ++ toString (unique_tags.headD 0)
      (dss, true, reason, unique_tags.head?)
    else if !failed_ds.isEmpty then
      (dss, false, "DS validation failed: " ++ String.intercalate "; " failed_ds, none)
    else
      (dss, false, "No DS record matches any DNSKEY", none)

/-- The RRSIG scan of `_validate_rrsig_timing`: walk the zone's RRSIGs
mutating them as the source does (the source returns as soon as a
DNSKEY-covering RRSIG is expired or not yet valid, leaving the remaining
records untouched).  Returns the updated RRSIG list and the
`(is_valid, reason)` pair. -/
def rrsigTimingLoop (now : Int) (keys : List DNSKeyInfo) :
    List RRSIGInfo → List RRSIGInfo × Bool × String
  | [] => ([], true, "RRSIG timing valid")
  | r :: rest =>
    if r.type_covered == "DNSKEY" then
      if r.is_expired now then
        ({ r with
             is_valid := some false
             validation_error := some "Signature expired" } :: rest,
         false, "DNSKEY RRSIG expired on " ++ toString r.expiration)
      else if r.is_not_yet_valid now then
        ({ r with
             is_valid := some false
             validation_error := some "Signature not yet valid" } :: rest,
         false, "DNSKEY RRSIG not valid until " ++ toString r.inception)
      else
        let r' :=
          if (keys.find? (fun k => k.key_tag == r.key_tag)).isSome then
            { r with is_valid := some true }
          else
            { r with
                is_valid := some false
                validation_error :=
                  some ("Signing key " ++ toString r.key_tag ++ " not found") }
        let (rs, ok, reason) := rrsigTimingLoop now keys rest
        (r' :: rs, ok, reason)
    else
      let (rs, ok, reason) := rrsigTimingLoop now keys rest
      (r :: rs, ok, reason)

/-- `DNSSECValidator._validate_rrsig_timing` over a zone. -/
def validate_rrsig_timing (now : Int) (zone : ZoneInfo) :
    List RRSIGInfo × Bool × String :=
  rrsigTimingLoop now zone.dnskeys zone.rrsigs

/-- The anchor scan of `_validate_root_zone`: for each compiled-in trust
anchor in order, the first root DNSKEY with matching key tag and
algorithm whose computed DS digest equals the anchor digest
case-insensitively; returns that key's tag.  (The source wraps the digest
computation in `try/except`; the computation cannot raise in the model's
domain.) -/
def findAnchorMatch (H : HashFuns) (keys : List DNSKeyInfo) :
    List RootAnchor → Option Nat
  | [] => none
  | a :: rest =>
    match (keys.find? (fun key =>
        key.key_tag == a.key_tag && key.algorithm == a.algorithm &&
        asciiUpper (computeDsDigest H "." key a.digest_type) ==
          asciiUpper a.digest)).map (·.key_tag) with
    | some t => some t
    | none => findAnchorMatch H keys rest

/-- `DNSSECValidator._validate_root_zone`: `(is_valid, reason)`. -/
def validate_root_zone (H : HashFuns) (zone : ZoneInfo) : Bool × String :=
  if zone.name ≠ "." then (false, "Not the root zone")
  else if zone.dnskeys.isEmpty then
    (false, "Root zone has no DNSKEY records (DNS query may have failed)")
  else
    let key_tags_found := zone.dnskeys.map (·.key_tag)
    match findAnchorMatch H zone.dnskeys ROOT_DS_RECORDS with
    | some tag => (true, "Root DNSKEY " ++ toString tag ++ " matches trust anchor")
    | none =>
      let ksks := zone.dnskeys.filter (·.is_ksk)
      if !ksks.isEmpty then
        (true, "Root has KSK(s): " ++ toString (ksks.map (·.key_tag)) ++
          " (trust anchor verification skipped)")
      else
        (false, "No root DNSKEY matches trust anchor. Found keys: " ++
          toString key_tags_found)

/-- Result of the per-zone loop of `validate_chain` over `zones[1:]`:
the processed zone list (on an early `return`, the current zone mutated
and the remaining zones untouched, exactly as the source's in-place list
shows them), the overall reason of an early BOGUS return if one happened,
and the running `all_secure` flag. -/
structure LoopOut where
  zones : List ZoneInfo
  early : Option String
  all_secure : Bool
deriving DecidableEq, Repr

/-- One iteration of the `for zone in zones[1:]` loop of
`DNSSECValidator.validate_chain` on a non-root zone: either `next`
(continue with the mutated zone — the new `parent_zone` — and the updated
`all_secure` flag) or `stop` (the source's early `return` making the
chain BOGUS, with the mutated zone and the overall reason). -/
inductive StepOut where
  | next (z : ZoneInfo) (all_secure : Bool)
  | stop (z : ZoneInfo) (reason : String)
deriving DecidableEq, Repr

/-- The DNSKEY-RRSIG inspection of the zone loop of `validate_chain`:
find the first RRSIG covering DNSKEY and set `dnskey_validated` when its
signing key tag equals the DS-matched tag (Python truthiness makes a
matched tag of 0 fail that test) or names any DNSKEY of the zone. -/
def dnskeyValidatedUpdate (matched_tag : Option Nat) (zone3 : ZoneInfo) : ZoneInfo :=
  match zone3.rrsigs.find? (fun r => r.type_covered == "DNSKEY") with
  | some rs =>
    if (match matched_tag with
        | some t => decide (t ≠ 0) && rs.key_tag == t
        | none => false) then
      { zone3 with dnskey_validated := true }
    else if (zone3.get_key_by_tag rs.key_tag).isSome then
      { zone3 with dnskey_validated := true }
    else zone3
  | none => zone3

/-- The body of one iteration of the zone loop of `validate_chain`. -/
def stepZone (H : HashFuns) (now : Int) (parent_zone : ZoneInfo)
    (all_secure : Bool) (zone : ZoneInfo) : StepOut :=
  if zone.dnskeys.isEmpty then
    if zone.ds_records.isEmpty then
      .next { zone with
                status := .INSECURE
                status_reason := "No DNSSEC (unsigned delegation)" } false
    else
      .stop { zone with
                status := .BOGUS
                status_reason := "DS exists but no DNSKEY in zone" }
        ("Zone " ++ zone.name ++ ": DS exists but no DNSKEY")
  else
    let v := validate_ds_to_dnskey H zone zone.ds_records
    let ds_valid := v.2.1
    let ds_reason := v.2.2.1
    let matched_tag := v.2.2.2
    let zone1 := { zone with ds_records := v.1 }
    if ds_valid then
      let zone2 := { zone1 with ds_validated := true }
      let t := validate_rrsig_timing now zone2
      let timing_valid := t.2.1
      let timing_reason := t.2.2
      let zone3 := { zone2 with rrsigs := t.1 }
      if !timing_valid then
        .stop { zone3 with status := .BOGUS, status_reason := timing_reason }
          ("Zone " ++ zone.name ++ ": " ++ timing_reason)
      else
        let zone4 := dnskeyValidatedUpdate matched_tag zone3
        if zone4.ds_validated && zone4.dnskey_validated then
          .next { zone4 with
                    status := .SECURE
                    status_reason := "Chain validated"
                    chain_complete := true } all_secure
        else if zone4.ds_validated then
          .next { zone4 with
                    status := .SECURE
                    status_reason := "DS validated (RRSIG check partial)"
                    chain_complete := true } all_secure
        else
          .next { zone4 with
                    status := .INDETERMINATE
                    status_reason := "Could not fully validate" } false
    else
      if !zone1.ds_records.isEmpty then
        .stop { zone1 with status := .BOGUS, status_reason := ds_reason }
          ("Zone " ++ zone.name ++ ": " ++ ds_reason)
      else
        let reason :=
          if parent_zone.status == .SECURE then
            "No DS record in parent (insecure delegation)"
          else "Parent zone is not secure"
        .next { zone1 with status := .INSECURE, status_reason := reason } false

/-- The `for zone in zones[1:]` loop of `DNSSECValidator.validate_chain`,
carrying `parent_zone` and `all_secure`. -/
def processZones (H : HashFuns) (now : Int) :
    ZoneInfo → Bool → List ZoneInfo → LoopOut
  | _, all_secure, [] => ⟨[], none, all_secure⟩
  | parent_zone, all_secure, zone :: rest =>
    match stepZone H now parent_zone all_secure zone with
    | .next z all2 =>
      let r := processZones H now z all2 rest
      ⟨z :: r.zones, r.early, r.all_secure⟩
    | .stop z reason => ⟨z :: rest, some reason, all_secure⟩

/-- The tail of `validate_chain` after a valid root: attach the loop's
outcome to the chain — a BOGUS early return, the all-secure SECURE
verdict, or adoption of the first non-SECURE zone's status. -/
def finishChain (chain1 : TrustChain) (root2 : ZoneInfo) (r : LoopOut) : TrustChain :=
  match r.early with
  | some reason =>
    { chain1 with
        zones := root2 :: r.zones
        overall_status := .BOGUS
        overall_reason := reason }
  | none =>
    let finalZones := root2 :: r.zones
    if r.all_secure then
      { chain1 with
          zones := finalZones
          overall_status := .SECURE
          overall_reason := "Complete chain of trust validated" }
    else
      match finalZones.find? (fun z => !(z.status == .SECURE)) with
      | some z =>
        if z.status == .INSECURE then
          { chain1 with
              zones := finalZones
              overall_status := .INSECURE
              overall_reason := "Chain breaks at " ++ z.name ++ ": " ++
                z.status_reason }
        else
          { chain1 with
              zones := finalZones
              overall_status := z.status
              overall_reason := "Chain issue at " ++ z.name ++ ": " ++
                z.status_reason }
      | none => { chain1 with zones := finalZones }

/-- `DNSSECValidator.validate_chain`.  The resolver call
`self.resolver.query_zone_chain(domain)` is the parameter
`query_result`: an exception message, or the zone list (as the resolver
materialised it) with the elapsed milliseconds.  `now` is the UTC instant
used for `query_time` and the RRSIG window checks. -/
def validate_chain (H : HashFuns) (now : Int) (resolver_nameservers : List String)
    (query_result : Except String (List ZoneInfo × Int)) (domain : String) :
    TrustChain :=
  let chain0 : TrustChain :=
    { target_domain := domain
      query_time := now
      resolver_used := String.intercalate ", " resolver_nameservers }
  match query_result with
  | .error e =>
    { chain0 with
        overall_status := .INDETERMINATE
        overall_reason := "DNS query failed: " ++ e }
  | .ok (zones, query_time) =>
    let chain1 := { chain0 with zones := zones, query_duration_ms := query_time }
    match zones with
    | [] =>
      { chain1 with
          overall_status := .INDETERMINATE
          overall_reason := "Could not query DNS records - no zones returned" }
    | z0 :: rest =>
      if z0.name ≠ "." then
        { chain1 with
            overall_status := .INDETERMINATE
            overall_reason := "Root zone not found. Got zones: " ++
              toString ((z0 :: rest).map (·.name)) }
      else
        let rv := validate_root_zone H z0
        let root_valid := rv.1
        let root_reason := rv.2
        if !root_valid then
          let root1 := { z0 with status := .BOGUS, status_reason := root_reason }
          { chain1 with
              zones := root1 :: rest
              overall_status := .BOGUS
              overall_reason := "Root validation failed: " ++ root_reason }
        else
          let root1 := { z0 with
                           status := .SECURE
                           status_reason := root_reason
                           chain_complete := true }
          let t := validate_rrsig_timing now root1
          let timing_valid := t.2.1
          let timing_reason := t.2.2
          let root2 := { root1 with rrsigs := t.1 }
          if !timing_valid then
            let root3 := { root2 with status := .BOGUS, status_reason := timing_reason }
            { chain1 with
                zones := root3 :: rest
                overall_status := .BOGUS
                overall_reason := timing_reason }
          else
            finishChain chain1 root2 (processZones H now root2 true rest)

/-! ## Concrete scenario fixtures -/

/-- Concrete hash functions for the closed scenarios: every digest is the
empty string.  No scenario below ever reaches a comparison of a computed
digest against a non-empty stored digest, so the choice is immaterial. -/
def trivialHashes : HashFuns := ⟨fun _ => "", fun _ => "", fun _ => ""⟩

/-- A KSK (SEP bit set) whose tag 9999 matches no built-in trust anchor. -/
def kskTag9999 : DNSKeyInfo :=
  { flags := 257, protocol := 3, algorithm := 8, algorithm_name := "RSA/SHA-256",
    key_tag := 9999, key_data := [1, 2, 3], key_length := 2048 }

/-- A root zone as the resolver materialises it when the DNSKEY query
returned nothing. -/
def rootZoneNoKeys : ZoneInfo := { name := "." }

/-- A root zone holding a single KSK that matches no built-in anchor. -/
def rootZoneKskOnly : ZoneInfo := { name := ".", dnskeys := [kskTag9999] }

/-! ## Claim C1: root zone without DNSKEYs -/

/-- Claim C1 (counterexample): when the zone list is non-empty, starts at
the root and the root has no DNSKEY records, `validate_chain` does *not*
return INDETERMINATE with reason "DNS query failed": at a concrete such
input the chain is BOGUS (with reason "Root validation failed: Root zone
has no DNSKEY records (DNS query may have failed)"). -/
theorem claim_C1_counterexample :
    ¬ (∀ (H : HashFuns) (now : Int) (ns : List String) (z0 : ZoneInfo)
         (rest : List ZoneInfo) (t : Int) (domain : String),
         z0.name = "." → z0.dnskeys = [] →
         (validate_chain H now ns (.ok (z0 :: rest, t)) domain).overall_status =
             .INDETERMINATE ∧
         "DNS query failed".data <:+:
           (validate_chain H now ns (.ok (z0 :: rest, t)) domain).overall_reason.data) := by
  intro h
  have hc := (h trivialHashes 0 [] rootZoneNoKeys [] 0 "example.com" rfl rfl).1
  exact absurd hc (by decide)

/-- Claim C1 (amended): if the queried zone list is non-empty, its first
zone is the root and the root has no DNSKEY records, `validate_chain`
returns a chain whose `overall_status` is BOGUS with reason
"Root validation failed: Root zone has no DNSKEY records (DNS query may
have failed)". -/
theorem claim_C1_amended (H : HashFuns) (now : Int) (ns : List String)
    (z0 : ZoneInfo) (rest : List ZoneInfo) (t : Int) (domain : String)
    (h1 : z0.name = ".") (h2 : z0.dnskeys = []) :
    (validate_chain H now ns (.ok (z0 :: rest, t)) domain).overall_status = .BOGUS ∧
    (validate_chain H now ns (.ok (z0 :: rest, t)) domain).overall_reason =
      "Root validation failed: Root zone has no DNSKEY records (DNS query may have failed)" := by
  simp [validate_chain, validate_root_zone, h1, h2]

/-- Claim C1 (witness): the amended claim at a concrete root-only input. -/
theorem claim_C1_amended_witness :
    (validate_chain trivialHashes 0 [] (.ok ([rootZoneNoKeys], 0))
        "example.com").overall_status = .BOGUS ∧
    (validate_chain trivialHashes 0 [] (.ok ([rootZoneNoKeys], 0))
        "example.com").overall_reason =
      "Root validation failed: Root zone has no DNSKEY records (DNS query may have failed)" :=
  claim_C1_amended trivialHashes 0 [] rootZoneNoKeys [] 0 "example.com" rfl rfl

/-! ## Loop invariants of the validator -/

theorem dnskeyValidatedUpdate_ds_validated (mt : Option Nat) (z : ZoneInfo) :
    (dnskeyValidatedUpdate mt z).ds_validated = z.ds_validated := by
  unfold dnskeyValidatedUpdate
  split
  · split
    · rfl
    · split <;> rfl
  · rfl

theorem stepZone_next (H : HashFuns) (now : Int) (p : ZoneInfo) (a : Bool)
    (zone z : ZoneInfo) (b : Bool)
    (h : stepZone H now p a zone = .next z b) :
    (b = a ∧ z.status = .SECURE ∧ z.ds_validated = true) ∨
    (b = false ∧ (z.status = .INSECURE ∨ z.status = .INDETERMINATE)) := by
  cases c1 : zone.dnskeys.isEmpty with
  | true =>
    cases c2 : zone.ds_records.isEmpty with
    | true =>
      simp only [stepZone, c1, c2, if_true] at h
      injection h with hz hb
      subst hz; subst hb
      exact Or.inr ⟨rfl, Or.inl rfl⟩
    | false =>
      simp [stepZone, c1, c2] at h
  | false =>
    rcases hv : validate_ds_to_dnskey H zone zone.ds_records with ⟨dss, dsv, dsr, mt⟩
    cases dsv with
    | false =>
      cases c2 : dss.isEmpty with
      | true =>
        simp only [stepZone, c1, hv, c2] at h
        simp at h
        obtain ⟨hz, hb⟩ := h
        subst hz; subst hb
        exact Or.inr ⟨rfl, Or.inl rfl⟩
      | false =>
        simp [stepZone, c1, hv, c2] at h
    | true =>
      rcases ht : validate_rrsig_timing now
          { zone with ds_records := dss, ds_validated := true } with ⟨rrs, tv, tr⟩
      cases tv with
      | false =>
        simp [stepZone, c1, hv, ht] at h
      | true =>
        simp only [stepZone, c1, hv, ht, Bool.not_true, Bool.false_eq_true, if_false,
          dnskeyValidatedUpdate_ds_validated, Bool.true_and] at h
        cases hd : (dnskeyValidatedUpdate mt
            { zone with ds_records := dss, ds_validated := true, rrsigs := rrs }).dnskey_validated with
        | true =>
          rw [hd] at h
          simp only [if_true] at h
          injection h with hz hb
          subst hz; subst hb
          refine Or.inl ⟨rfl, rfl, ?_⟩
          simp [dnskeyValidatedUpdate_ds_validated]
        | false =>
          rw [hd] at h
          simp only [Bool.false_eq_true, if_false, if_true] at h
          injection h with hz hb
          subst hz; subst hb
          refine Or.inl ⟨rfl, rfl, ?_⟩
          simp [dnskeyValidatedUpdate_ds_validated]

theorem stepZone_stop (H : HashFuns) (now : Int) (p : ZoneInfo) (a : Bool)
    (zone z : ZoneInfo) (reason : String)
    (h : stepZone H now p a zone = .stop z reason) : z.status = .BOGUS := by
  cases c1 : zone.dnskeys.isEmpty with
  | true =>
    cases c2 : zone.ds_records.isEmpty with
    | true => simp [stepZone, c1, c2] at h
    | false =>
      simp only [stepZone, c1, c2, if_true] at h
      simp at h
      obtain ⟨hz, -⟩ := h
      subst hz; rfl
  | false =>
    rcases hv : validate_ds_to_dnskey H zone zone.ds_records with ⟨dss, dsv, dsr, mt⟩
    cases dsv with
    | false =>
      cases c2 : dss.isEmpty with
      | true => simp [stepZone, c1, hv, c2] at h
      | false =>
        simp only [stepZone, c1, hv, c2] at h
        simp at h
        obtain ⟨hz, -⟩ := h
        subst hz; rfl
    | true =>
      rcases ht : validate_rrsig_timing now
          { zone with ds_records := dss, ds_validated := true } with ⟨rrs, tv, tr⟩
      cases tv with
      | false =>
        simp only [stepZone, c1, hv, ht] at h
        simp at h
        obtain ⟨hz, -⟩ := h
        subst hz; rfl
      | true =>
        simp only [stepZone, c1, hv, ht, Bool.not_true, Bool.false_eq_true, if_false,
          dnskeyValidatedUpdate_ds_validated, Bool.true_and] at h
        cases hd : (dnskeyValidatedUpdate mt
            { zone with ds_records := dss, ds_validated := true, rrsigs := rrs }).dnskey_validated <;>
          rw [hd] at h <;> simp at h

theorem processZones_secure (H : HashFuns) (now : Int) (l : List ZoneInfo) :
    ∀ (p : ZoneInfo) (a : Bool),
      (processZones H now p a l).early = none →
      (processZones H now p a l).all_secure = true →
      a = true ∧ ∀ z ∈ (processZones H now p a l).zones, z.status = .SECURE := by
  induction l with
  | nil =>
    intro p a he hs
    exact ⟨hs, by simp [processZones]⟩
  | cons zone rest ih =>
    intro p a
    simp only [processZones]
    rcases hstep : stepZone H now p a zone with ⟨z, b⟩ | ⟨z, reason⟩ <;> dsimp only
    · intro he hs
      obtain ⟨hb, hall⟩ := ih z b he hs
      subst hb
      rcases stepZone_next H now p a zone z _ hstep with ⟨hba, hst, -⟩ | ⟨hbf, -⟩
      · refine ⟨hba.symm, ?_⟩
        intro w hw
        rcases List.mem_cons.mp hw with hw | hw
        · subst hw; exact hst
        · exact hall w hw
      · cases hbf
    · intro he hs
      simp at he

theorem processZones_statuses (H : HashFuns) (now : Int) (l : List ZoneInfo) :
    ∀ (p : ZoneInfo) (a : Bool),
      (processZones H now p a l).early = none →
      ∀ z ∈ (processZones H now p a l).zones,
        z.status = .SECURE ∨ z.status = .INSECURE ∨ z.status = .INDETERMINATE := by
  induction l with
  | nil => intro p a he; simp [processZones]
  | cons zone rest ih =>
    intro p a
    simp only [processZones]
    rcases hstep : stepZone H now p a zone with ⟨z, b⟩ | ⟨z, reason⟩ <;> dsimp only
    · intro he w hw
      rcases List.mem_cons.mp hw with hw | hw
      · subst hw
        rcases stepZone_next H now p a zone _ _ hstep with ⟨-, hst, -⟩ | ⟨-, hst⟩
        · exact Or.inl hst
        · rcases hst with h | h
          exacts [Or.inr (Or.inl h), Or.inr (Or.inr h)]
      · exact ih z b he w hw
    · intro he; simp at he

theorem processZones_exists_not_secure (H : HashFuns) (now : Int) (l : List ZoneInfo) :
    ∀ (p : ZoneInfo),
      (processZones H now p true l).early = none →
      (processZones H now p true l).all_secure = false →
      ∃ z ∈ (processZones H now p true l).zones, ¬ z.status = .SECURE := by
  induction l with
  | nil => intro p he hs; simp [processZones] at hs
  | cons zone rest ih =>
    intro p
    simp only [processZones]
    rcases hstep : stepZone H now p true zone with ⟨z, b⟩ | ⟨z, reason⟩ <;> dsimp only
    · intro he hs
      rcases stepZone_next H now p true zone z _ hstep with ⟨hba, -, -⟩ | ⟨hbf, hst⟩
      · subst hba
        obtain ⟨w, hw, hns⟩ := ih z he hs
        exact ⟨w, List.mem_cons_of_mem _ hw, hns⟩
      · subst hbf
        refine ⟨z, List.mem_cons_self _ _, ?_⟩
        rcases hst with h | h <;> simp [h]
    · intro he; simp at he

theorem processZones_secure_ds (H : HashFuns) (now : Int) (l : List ZoneInfo) :
    ∀ (p : ZoneInfo) (a : Bool),
      (∀ z ∈ l, z.status = .UNKNOWN) →
      ∀ z ∈ (processZones H now p a l).zones, z.status = .SECURE → z.ds_validated = true := by
  induction l with
  | nil => intro p a hf; simp [processZones]
  | cons zone rest ih =>
    intro p a hf
    simp only [processZones]
    rcases hstep : stepZone H now p a zone with ⟨z, b⟩ | ⟨z, reason⟩ <;> dsimp only
    · intro w hw hsec
      rcases List.mem_cons.mp hw with hw | hw
      · subst hw
        rcases stepZone_next H now p a zone _ _ hstep with ⟨-, -, hds⟩ | ⟨-, hst⟩
        · exact hds
        · rcases hst with h | h <;> (rw [h] at hsec; exact absurd hsec (by decide))
      · exact ih z b (fun u hu => hf u (List.mem_cons_of_mem _ hu)) w hw hsec
    · intro w hw hsec
      rcases List.mem_cons.mp hw with hw | hw
      · subst hw
        have hb := stepZone_stop H now p a zone _ _ hstep
        rw [hb] at hsec
        exact absurd hsec (by decide)
      · have hu := hf w (List.mem_cons_of_mem _ hw)
        rw [hu] at hsec
        exact absurd hsec (by decide)

theorem finishChain_zones (c : TrustChain) (root2 : ZoneInfo) (r : LoopOut) :
    (finishChain c root2 r).zones = root2 :: r.zones := by
  unfold finishChain
  rcases r with ⟨zs, e, a⟩
  cases e
  · dsimp only
    split
    · rfl
    · split
      · split <;> rfl
      · rfl
  · rfl

theorem finishChain_c4 (H : HashFuns) (now : Int) (rest : List ZoneInfo)
    (c : TrustChain) (root2 : ZoneInfo)
    (hroot : root2.status = .SECURE)
    (h : (finishChain c root2 (processZones H now root2 true rest)).overall_status =
      .SECURE) :
    ∀ z ∈ (finishChain c root2 (processZones H now root2 true rest)).zones,
      z.status = .SECURE := by
  rw [finishChain_zones]
  cases hre : (processZones H now root2 true rest).early with
  | some reason =>
    unfold finishChain at h
    rw [hre] at h
    simp at h
  | none =>
    cases has : (processZones H now root2 true rest).all_secure with
    | true =>
      intro z hz
      rcases List.mem_cons.mp hz with rfl | hz
      · exact hroot
      · exact (processZones_secure H now rest root2 true hre has).2 z hz
    | false =>
      exfalso
      rcases hf : (root2 :: (processZones H now root2 true rest).zones).find?
          (fun z => !(z.status == .SECURE)) with _ | z
      · obtain ⟨w, hw, hns⟩ := processZones_exists_not_secure H now rest root2 hre has
        have hw' := List.find?_eq_none.mp hf w (List.mem_cons_of_mem _ hw)
        simp at hw'
        exact hns hw'
      · have hpz := List.find?_some hf
        simp at hpz
        by_cases hzi : z.status = .INSECURE
        · simp [finishChain, hre, has, hf, hzi] at h
        · simp [finishChain, hre, has, hf, hzi] at h
          exact hpz h

/-- Claim C4: for every `TrustChain` returned by `validate_chain`, if
`overall_status` is SECURE then every zone in the chain has status
SECURE. -/
theorem claim_C4 (H : HashFuns) (now : Int) (ns : List String)
    (qr : Except String (List ZoneInfo × Int)) (domain : String)
    (h : (validate_chain H now ns qr domain).overall_status = .SECURE) :
    ∀ z ∈ (validate_chain H now ns qr domain).zones, z.status = .SECURE := by
  rcases qr with e | ⟨zs, t⟩
  · simp [validate_chain] at h
  · rcases zs with _ | ⟨z0, rest⟩
    · simp [validate_chain] at h
    · by_cases hn : z0.name = "."
      · rcases hrv : validate_root_zone H z0 with ⟨rvalid, rreason⟩
        cases rvalid
        · simp [validate_chain, hn, hrv] at h
        · rcases ht : validate_rrsig_timing now
              { z0 with name := ".", status := .SECURE, status_reason := rreason, chain_complete := true } with
              ⟨rrs, tv, tr⟩
          cases tv
          · simp [validate_chain, hn, hrv, ht] at h
          · simp only [validate_chain, hn, hrv, ht] at h ⊢
            simp only [ne_eq, not_true_eq_false, if_false, Bool.not_true,
              Bool.false_eq_true, Bool.not_false, if_true] at h ⊢
            exact finishChain_c4 H now rest _ _ rfl h
      · simp [validate_chain, hn] at h

theorem finishChain_c10 (H : HashFuns) (now : Int) (rest : List ZoneInfo)
    (c : TrustChain) (root2 : ZoneInfo) (hroot : root2.status = .SECURE) :
    (finishChain c root2 (processZones H now root2 true rest)).overall_status = .SECURE ∨
    (finishChain c root2 (processZones H now root2 true rest)).overall_status = .INSECURE ∨
    (finishChain c root2 (processZones H now root2 true rest)).overall_status = .BOGUS ∨
    (finishChain c root2 (processZones H now root2 true rest)).overall_status =
      .INDETERMINATE := by
  cases hre : (processZones H now root2 true rest).early with
  | some reason => simp [finishChain, hre]
  | none =>
    cases has : (processZones H now root2 true rest).all_secure with
    | true => simp [finishChain, hre, has]
    | false =>
      rcases hf : (root2 :: (processZones H now root2 true rest).zones).find?
          (fun z => !(z.status == .SECURE)) with _ | z
      · exfalso
        obtain ⟨w, hw, hns⟩ := processZones_exists_not_secure H now rest root2 hre has
        have hw' := List.find?_eq_none.mp hf w (List.mem_cons_of_mem _ hw)
        simp at hw'
        exact hns hw'
      · have hpz := List.find?_some hf
        simp at hpz
        have hzmem := List.mem_of_find?_eq_some hf
        have hzs : z.status = .INSECURE ∨ z.status = .INDETERMINATE := by
          rcases List.mem_cons.mp hzmem with rfl | hz'
          · exact absurd hroot hpz
          · rcases processZones_statuses H now rest root2 true hre z hz' with hs | hs | hs
            · exact absurd hs hpz
            · exact Or.inl hs
            · exact Or.inr hs
        by_cases hzi : z.status = .INSECURE
        · simp [finishChain, hre, has, hf, hzi]
        · rcases hzs with hzs | hzs
          · exact absurd hzs hzi
          · simp [finishChain, hre, has, hf, hzi, hzs]

/-- Claim C10: for every input domain and every resolver outcome
(exception, empty zone list, missing root, or any zone data),
`validate_chain` returns a chain whose `overall_status` is one of
SECURE, INSECURE, BOGUS, INDETERMINATE — never UNKNOWN. -/
theorem claim_C10 (H : HashFuns) (now : Int) (ns : List String)
    (qr : Except String (List ZoneInfo × Int)) (domain : String) :
    (validate_chain H now ns qr domain).overall_status = .SECURE ∨
    (validate_chain H now ns qr domain).overall_status = .INSECURE ∨
    (validate_chain H now ns qr domain).overall_status = .BOGUS ∨
    (validate_chain H now ns qr domain).overall_status = .INDETERMINATE := by
  rcases qr with e | ⟨zs, t⟩
  · simp [validate_chain]
  · rcases zs with _ | ⟨z0, rest⟩
    · simp [validate_chain]
    · by_cases hn : z0.name = "."
      · rcases hrv : validate_root_zone H z0 with ⟨rvalid, rreason⟩
        cases rvalid
        · simp [validate_chain, hn, hrv]
        · rcases ht : validate_rrsig_timing now
              { z0 with name := ".", status := .SECURE, status_reason := rreason, chain_complete := true } with
              ⟨rrs, tv, tr⟩
          cases tv
          · simp [validate_chain, hn, hrv, ht]
          · simp only [validate_chain, hn, hrv, ht]
            simp only [ne_eq, not_true_eq_false, if_false, Bool.not_true,
              Bool.false_eq_true, Bool.not_false, if_true]
            exact finishChain_c10 H now rest _ _ rfl
      · simp [validate_chain, hn]

theorem validate_root_zone_true (H : HashFuns) (z : ZoneInfo) (reason : String)
    (h : validate_root_zone H z = (true, reason)) :
    (findAnchorMatch H z.dnskeys ROOT_DS_RECORDS).isSome = true ∨
      z.dnskeys.any (·.is_ksk) = true := by
  unfold validate_root_zone at h
  by_cases hn : z.name = "."
  · simp only [hn, ne_eq, not_true_eq_false, if_false] at h
    cases hk : z.dnskeys.isEmpty with
    | true => rw [hk] at h; simp at h
    | false =>
      rw [hk] at h
      simp only [Bool.false_eq_true, if_false] at h
      cases hm : findAnchorMatch H z.dnskeys ROOT_DS_RECORDS with
      | some tag => exact Or.inl (by simp [hm])
      | none =>
        rw [hm] at h
        cases hkk : (z.dnskeys.filter (·.is_ksk)).isEmpty with
        | true => rw [hkk] at h; simp at h
        | false =>
          right
          have hne : z.dnskeys.filter (·.is_ksk) ≠ [] := by
            intro hnil
            rw [hnil] at hkk
            simp at hkk
          obtain ⟨k, hk2⟩ := List.exists_mem_of_ne_nil _ hne
          have hmf := List.mem_filter.mp hk2
          exact List.any_eq_true.mpr ⟨k, hmf.1, hmf.2⟩
  · simp [hn] at h

theorem finishChain_c2 (H : HashFuns) (now : Int) (rest : List ZoneInfo)
    (c : TrustChain) (root2 : ZoneInfo)
    (hfresh : ∀ z ∈ rest, z.status = .UNKNOWN) :
    ∀ z ∈ (finishChain c root2 (processZones H now root2 true rest)).zones,
      z.status = .SECURE → z = root2 ∨ z.ds_validated = true := by
  rw [finishChain_zones]
  intro z hz hsec
  rcases List.mem_cons.mp hz with rfl | hz'
  · exact Or.inl rfl
  · exact Or.inr (processZones_secure_ds H now rest root2 true hfresh z hz' hsec)

/-- Claim C2 (amended): for every zone of a chain returned by
`validate_chain` (on resolver-fresh zones, whose statuses start UNKNOWN)
that is marked SECURE, either (i) it is the root zone and a built-in
trust anchor matched a root DNSKEY by key tag, algorithm and digest *or*
the root holds at least one KSK (the source's `trust anchor verification skipped`
fallback), or (ii) its `ds_validated` flag is true. -/
theorem claim_C2_amended (H : HashFuns) (now : Int) (ns : List String)
    (qr : Except String (List ZoneInfo × Int)) (domain : String)
    (hfresh : ∀ zs t, qr = .ok (zs, t) → ∀ z ∈ zs, z.status = .UNKNOWN) :
    ∀ z ∈ (validate_chain H now ns qr domain).zones, z.status = .SECURE →
      (z.name = "." ∧
        ((findAnchorMatch H z.dnskeys ROOT_DS_RECORDS).isSome = true ∨
         z.dnskeys.any (·.is_ksk) = true)) ∨
      z.ds_validated = true := by
  rcases qr with e | ⟨zs, t⟩
  · intro z hz
    simp [validate_chain] at hz
  · have hfr := hfresh zs t rfl
    rcases zs with _ | ⟨z0, rest⟩
    · intro z hz
      simp [validate_chain] at hz
    · by_cases hn : z0.name = "."
      · rcases hrv : validate_root_zone H z0 with ⟨rvalid, rreason⟩
        cases rvalid
        · intro z hz hsec
          simp [validate_chain, hn, hrv] at hz
          rcases hz with rfl | hz'
          · simp at hsec
          · have hu := hfr z (List.mem_cons_of_mem _ hz')
            rw [hu] at hsec
            exact absurd hsec (by decide)
        · rcases ht : validate_rrsig_timing now
              { z0 with name := ".", status := .SECURE, status_reason := rreason, chain_complete := true } with
              ⟨rrs, tv, tr⟩
          cases tv
          · intro z hz hsec
            simp [validate_chain, hn, hrv, ht] at hz
            rcases hz with rfl | hz'
            · simp at hsec
            · have hu := hfr z (List.mem_cons_of_mem _ hz')
              rw [hu] at hsec
              exact absurd hsec (by decide)
          · intro z hz hsec
            simp only [validate_chain, hn, hrv, ht] at hz
            simp only [ne_eq, not_true_eq_false, if_false, Bool.not_true,
              Bool.false_eq_true, Bool.not_false, if_true] at hz
            rcases finishChain_c2 H now rest _ _
                (fun u hu => hfr u (List.mem_cons_of_mem _ hu)) z hz hsec with rfl | hds
            · left
              refine ⟨rfl, ?_⟩
              exact validate_root_zone_true H z0 rreason hrv
            · exact Or.inr hds
      · intro z hz hsec
        simp [validate_chain, hn] at hz
        have hu := hfr z (List.mem_cons.mpr hz)
        rw [hu] at hsec
        exact absurd hsec (by decide)

/-- The root zone as `validate_chain` returns it in the KSK-fallback
scenario: SECURE with the "trust anchor verification skipped" reason,
no anchor matched, `ds_validated` still false. -/
def c2SecureRoot : ZoneInfo :=
  { rootZoneKskOnly with
      status := .SECURE
      status_reason := "Root has KSK(s): [9999] (trust anchor verification skipped)"
      chain_complete := true }

/-- Claim C2 (counterexample): the claim — every SECURE zone is either a
root with a matching built-in trust anchor or has `ds_validated` — fails
on the source's root fallback: a root holding only a KSK that matches no
anchor is still marked SECURE, with no anchor match and with
`ds_validated = false`. -/
theorem claim_C2_counterexample :
    ¬ (∀ (H : HashFuns) (now : Int) (ns : List String)
         (qr : Except String (List ZoneInfo × Int)) (domain : String),
         (∀ zs t, qr = .ok (zs, t) → ∀ z ∈ zs, z.status = .UNKNOWN) →
         ∀ z ∈ (validate_chain H now ns qr domain).zones, z.status = .SECURE →
           (z.name = "." ∧
             (findAnchorMatch H z.dnskeys ROOT_DS_RECORDS).isSome = true) ∨
           z.ds_validated = true) := by
  intro hclaim
  have hfr : ∀ zs t, (Except.ok ([rootZoneKskOnly], 0) :
      Except String (List ZoneInfo × Int)) = .ok (zs, t) →
      ∀ z ∈ zs, z.status = .UNKNOWN := by
    intro zs t heq z hz
    cases heq
    simp only [List.mem_singleton] at hz
    subst hz
    rfl
  have h := hclaim trivialHashes 0 [] (.ok ([rootZoneKskOnly], 0)) "x" hfr
      c2SecureRoot (by decide) (by decide)
  exact absurd h (by decide)

/-- Claim C2 (witness): the amended claim applied to the concrete
KSK-fallback scenario. -/
theorem claim_C2_amended_witness :
    (c2SecureRoot.name = "." ∧
      ((findAnchorMatch trivialHashes c2SecureRoot.dnskeys ROOT_DS_RECORDS).isSome = true ∨
       c2SecureRoot.dnskeys.any (·.is_ksk) = true)) ∨
    c2SecureRoot.ds_validated = true :=
  claim_C2_amended trivialHashes 0 [] (.ok ([rootZoneKskOnly], 0)) "x"
    (by
      intro zs t heq z hz
      cases heq
      simp only [List.mem_singleton] at hz
      subst hz
      rfl)
    c2SecureRoot (by decide) (by decide)

/-- Claim C4 (witness): the theorem applied to a concrete chain whose
overall status is SECURE (the root-only KSK-fallback chain). -/
theorem claim_C4_witness : c2SecureRoot.status = .SECURE :=
  claim_C4 trivialHashes 0 [] (.ok ([rootZoneKskOnly], 0)) "x" (by decide)
    c2SecureRoot (by decide)

/-! ## Claim C7: DS records with unknown digest types -/

/-- A child zone holding the tag-9999 KSK, target of DS matching. -/
def c7Zone : ZoneInfo := { name := "example.com.", dnskeys := [kskTag9999] }

/-- A DS with unknown digest type 3 whose stored digest is empty. -/
def c7DsEmptyDigest : DSInfo :=
  { key_tag := 9999, algorithm := 8, algorithm_name := "RSA/SHA-256",
    digest_type := 3, digest_type_name := "GOST R 34.11-94", digest := "" }

/-- A DS with unknown digest type 3 and a non-empty stored digest. -/
def c7DsNonEmpty : DSInfo := { c7DsEmptyDigest with digest := "AB" }

theorem computeDsDigest_unknown (H : HashFuns) (zone_name : String)
    (dnskey : DNSKeyInfo) (dt : Nat) (h1 : dt ≠ 1) (h2 : dt ≠ 2) (h4 : dt ≠ 4) :
    computeDsDigest H zone_name dnskey dt = "" := by
  simp [computeDsDigest, h1, h2, h4]

theorem asciiUpper_ne_empty (s : String) (h : s ≠ "") : asciiUpper s ≠ "" := by
  intro he
  apply h
  have hdata : s.data.map Char.toUpper = [] := congrArg String.data he
  rw [List.map_eq_nil_iff] at hdata
  exact String.ext hdata

theorem findMatchingKey_unknown_digest (H : HashFuns) (zn : String)
    (ksks : List DNSKeyInfo) (ds : DSInfo)
    (h1 : ds.digest_type ≠ 1) (h2 : ds.digest_type ≠ 2) (h4 : ds.digest_type ≠ 4)
    (hd : ds.digest ≠ "") :
    findMatchingKey H zn ksks ds = none := by
  unfold findMatchingKey
  simp only [Option.map_eq_none']
  rw [List.find?_eq_none]
  intro k hk
  simp only [computeDsDigest_unknown H zn k ds.digest_type h1 h2 h4,
    Bool.and_eq_true, beq_iff_eq, not_and]
  intro h1' h2'
  exact asciiUpper_ne_empty ds.digest hd h2'.symm

theorem dsMatchLoop_spec (H : HashFuns) (zn : String)
    (ksks allKeys : List DNSKeyInfo) (dss : List DSInfo) :
    (dsMatchLoop H zn ksks allKeys dss).1 = dss.map (fun ds =>
        match findMatchingKey H zn ksks ds with
        | some t => { ds with validates_key := some t }
        | none => ds) ∧
    (dsMatchLoop H zn ksks allKeys dss).2.1 =
      dss.filterMap (findMatchingKey H zn ksks) := by
  induction dss with
  | nil => exact ⟨rfl, rfl⟩
  | cons ds rest ih =>
    simp only [dsMatchLoop, List.map_cons, List.filterMap_cons]
    cases hm : findMatchingKey H zn ksks ds <;>
      simp [hm, ih.1, ih.2]

theorem validate_ds_unknown_types (H : HashFuns) (zone : ZoneInfo)
    (dss : List DSInfo)
    (hds : ∀ ds ∈ dss, (ds.digest_type ≠ 1 ∧ ds.digest_type ≠ 2 ∧ ds.digest_type ≠ 4) ∧
      ds.digest ≠ "" ∧ ds.validates_key = none) :
    (validate_ds_to_dnskey H zone dss).2.1 = false ∧
    ∀ ds' ∈ (validate_ds_to_dnskey H zone dss).1, ds'.validates_key = none := by
  have hnone : ∀ ds ∈ dss, findMatchingKey H zone.name
      (if (zone.dnskeys.filter (·.is_ksk)).isEmpty then zone.dnskeys
       else zone.dnskeys.filter (·.is_ksk)) ds = none := by
    intro ds hmem
    obtain ⟨⟨h1, h2, h4⟩, hd, -⟩ := hds ds hmem
    exact findMatchingKey_unknown_digest _ _ _ _ h1 h2 h4 hd
  unfold validate_ds_to_dnskey
  cases he : dss.isEmpty with
  | true =>
    simp only [he, if_true]
    exact ⟨by simp, fun ds' hm => (hds ds' hm).2.2⟩
  | false =>
    cases hk : zone.dnskeys.isEmpty with
    | true =>
      simp only [he, hk, Bool.false_eq_true, if_false, if_true]
      exact ⟨by simp, fun ds' hm => (hds ds' hm).2.2⟩
    | false =>
      simp only [he, hk, Bool.false_eq_true, if_false]
      have hspec := dsMatchLoop_spec H zone.name
        (if (zone.dnskeys.filter (·.is_ksk)).isEmpty then zone.dnskeys
         else zone.dnskeys.filter (·.is_ksk)) zone.dnskeys dss
      have htags : (dsMatchLoop H zone.name
          (if (zone.dnskeys.filter (·.is_ksk)).isEmpty then zone.dnskeys
           else zone.dnskeys.filter (·.is_ksk)) zone.dnskeys dss).2.1 = [] := by
        rw [hspec.2]
        exact List.filterMap_eq_nil_iff.mpr hnone
      have hrecs : (dsMatchLoop H zone.name
          (if (zone.dnskeys.filter (·.is_ksk)).isEmpty then zone.dnskeys
           else zone.dnskeys.filter (·.is_ksk)) zone.dnskeys dss).1 = dss := by
        rw [hspec.1]
        have : dss.map (fun ds =>
            match findMatchingKey H zone.name
                (if (zone.dnskeys.filter (·.is_ksk)).isEmpty then zone.dnskeys
                 else zone.dnskeys.filter (·.is_ksk)) ds with
            | some t => { ds with validates_key := some t }
            | none => ds) = dss.map id := by
          apply List.map_congr_left
          intro ds hmem
          rw [hnone ds hmem]
          rfl
        rw [this, List.map_id]
        
      rw [htags, hrecs]
      simp only [List.isEmpty_nil, Bool.not_true, Bool.false_eq_true, if_false]
      cases hfail : ((dsMatchLoop H zone.name
          (if (zone.dnskeys.filter (·.is_ksk)).isEmpty then zone.dnskeys
           else zone.dnskeys.filter (·.is_ksk)) zone.dnskeys dss).2.2).isEmpty <;>
        simp only [Bool.not_true, Bool.not_false, Bool.false_eq_true, if_false, if_true] <;>
        exact ⟨by simp, fun ds' hm => (hds ds' hm).2.2⟩

/-- Claim C7 (counterexample): the claim says a DS whose digest type is
not 1, 2 or 4 never validates any DNSKEY; but the computed digest for an
unknown type is the empty string, and the comparison
`computed.upper() == ds.digest.upper()` therefore *succeeds* for a DS
whose stored digest is itself empty: such a DS validates a tag/algorithm
matching DNSKEY and sets `validates_key`. -/
theorem claim_C7_counterexample :
    ¬ ((∀ (H : HashFuns) (zone_name : String) (key : DNSKeyInfo) (dt : Nat),
          dt ≠ 1 → dt ≠ 2 → dt ≠ 4 → computeDsDigest H zone_name key dt = "") ∧
       (∀ (H : HashFuns) (zone : ZoneInfo) (dss : List DSInfo),
          (∀ ds ∈ dss, (ds.digest_type ≠ 1 ∧ ds.digest_type ≠ 2 ∧ ds.digest_type ≠ 4) ∧
            ds.validates_key = none) →
          (validate_ds_to_dnskey H zone dss).2.1 = false ∧
          ∀ ds' ∈ (validate_ds_to_dnskey H zone dss).1, ds'.validates_key = none)) := by
  intro h
  have hval := (h.2 trivialHashes c7Zone [c7DsEmptyDigest] (by decide)).1
  exact absurd hval (by decide)

/-- Claim C7 (amended): for every DS record whose digest type is not 1, 2
or 4 the computed DS digest is the empty string; and such a DS whose
*stored* digest is non-empty never validates any DNSKEY — it contributes
nothing to `ds_validated` and its `validates_key` stays unset.  (A DS
whose stored digest is also empty does validate a tag/algorithm matching
key, since the comparison is `"" == ""`.) -/
theorem claim_C7_amended :
    (∀ (H : HashFuns) (zone_name : String) (key : DNSKeyInfo) (dt : Nat),
       dt ≠ 1 → dt ≠ 2 → dt ≠ 4 → computeDsDigest H zone_name key dt = "") ∧
    (∀ (H : HashFuns) (zone : ZoneInfo) (dss : List DSInfo),
       (∀ ds ∈ dss, (ds.digest_type ≠ 1 ∧ ds.digest_type ≠ 2 ∧ ds.digest_type ≠ 4) ∧
         ds.digest ≠ "" ∧ ds.validates_key = none) →
       (validate_ds_to_dnskey H zone dss).2.1 = false ∧
       ∀ ds' ∈ (validate_ds_to_dnskey H zone dss).1, ds'.validates_key = none) :=
  ⟨computeDsDigest_unknown, validate_ds_unknown_types⟩

/-- Claim C7 (witness): the amended claim at a concrete unknown-type DS
with non-empty digest. -/
theorem claim_C7_amended_witness :
    (validate_ds_to_dnskey trivialHashes c7Zone [c7DsNonEmpty]).2.1 = false ∧
    ((validate_ds_to_dnskey trivialHashes c7Zone
        [c7DsNonEmpty]).1.headD default).validates_key = none ∧
    computeDsDigest trivialHashes "example.com." kskTag9999 3 = "" := by
  have h := claim_C7_amended.2 trivialHashes c7Zone [c7DsNonEmpty] (by decide)
  exact ⟨h.1, h.2 _ (by decide),
    claim_C7_amended.1 trivialHashes "example.com." kskTag9999 3
      (by decide) (by decide) (by decide)⟩

/-! ## Nameserver consistency (`resolver.py`, `check_consistency`) -/

/-- Rendering of a Python set of key tags inside an issue string; CPython's
set iteration order is unspecified, the model uses ascending order.  No
claim inspects issue strings. -/
def showTagSet (s : Finset Nat) : String := toString (s.sort (· ≤ ·))

/-- `DNSResolver.check_consistency`.  The network-facing pieces are
parameters: `getAuthNs` models `get_authoritative_nameservers` (the
`(hostname, ip)` pairs) and `queryDirect ip zone` models
`query_nameserver_direct`; the loop then stores the hostname into
`server_name` exactly as the source does.  The source accumulates the
response list, the responded counter and the key sets in one loop; the
model expresses the same values with `map`/`filter`.  The mismatch scan
keeps the source's indexing of `server_responses` by the position in
`all_key_sets` (which can name the wrong server when an earlier server
did not respond — the flag is unaffected). -/
def check_consistency (getAuthNs : String → List (String × String))
    (queryDirect : String → String → ServerResponse)
    (zone : String) (max_servers : Nat := 5) : ConsistencyResult :=
  let nameservers := getAuthNs zone
  if nameservers.isEmpty then
    { zone_name := zone, issues := ["Could not find authoritative nameservers"] }
  else
    let ns := nameservers.take max_servers
    let server_responses :=
      ns.map (fun p => { queryDirect p.2 zone with server_name := p.1 })
    let responded := server_responses.filter (·.responded)
    let all_key_sets := responded.map (fun r => r.dnskey_tags.toFinset)
    let reference_set := all_key_sets.headD ∅
    let setMismatch :=
      if 1 < all_key_sets.length then
        (all_key_sets.drop 1).any (fun ks => decide (ks ≠ reference_set))
      else false
    let mismatch_issues :=
      if 1 < all_key_sets.length then
        ((all_key_sets.enum).drop 1).foldl (fun acc p =>
          if p.2 ≠ reference_set then
            let missing := reference_set \ p.2
            let extra := p.2 \ reference_set
            let server := server_responses.getD p.1 default
            acc ++
              (if missing ≠ ∅ then
                [server.server_name ++ " missing keys: " ++ showTagSet missing]
               else []) ++
              (if extra ≠ ∅ then
                [server.server_name ++ " has extra keys: " ++ showTagSet extra]
               else [])
          else acc) []
      else []
    let nonresp_issues := (server_responses.filter (fun r => !r.responded)).map
      (fun r => r.server_ip ++ " did not respond: " ++ r.error.getD "unknown")
    let rrsigBad := server_responses.filter
      (fun r => r.responded && !r.has_rrsig && !r.dnskey_tags.isEmpty)
    let rrsig_issues := rrsigBad.map
      (fun r => r.server_name ++ " returned DNSKEY without RRSIG")
    { zone_name := zone
      nameservers_queried := ns.length
      nameservers_responded := responded.length
      is_consistent := !setMismatch && rrsigBad.isEmpty
      issues := mismatch_issues ++ nonresp_issues ++ rrsig_issues
      server_responses := server_responses }

def c6NsOne : String → List (String × String) :=
  fun _ => [("ns1.example.com.", "192.0.2.1")]

def c6QueryNoRrsig : String → String → ServerResponse :=
  fun ip _ =>
    { server_ip := ip, server_name := "", responded := true,
      dnskey_tags := [], has_rrsig := false }

theorem drop_one_eq_head_iff {β : Type} [DecidableEq β] (L : List β) (d : β) :
    ((L.drop 1).any (fun ks => decide (ks ≠ L.headD d)) = false) ↔
      ∀ a ∈ L, ∀ b ∈ L, a = b := by
  cases L with
  | nil => simp
  | cons r rest =>
    simp only [List.drop_succ_cons, List.drop_zero, List.headD_cons,
      List.any_eq_false, decide_eq_true_eq, not_not]
    constructor
    · intro h a ha b hb
      have key : ∀ x, x ∈ r :: rest → x = r := by
        intro x hx
        rcases List.mem_cons.mp hx with h1 | h1
        · exact h1
        · exact h x h1
      rw [key a ha, key b hb]
    · intro h x hx
      exact h x (List.mem_cons_of_mem _ hx) r (List.mem_cons_self _ _)

theorem flag_false_iff {β : Type} [DecidableEq β] (L : List β) (d : β) :
    ((if 1 < L.length then
        (L.drop 1).any (fun ks => decide (ks ≠ L.headD d))
      else false) = false) ↔ ∀ a ∈ L, ∀ b ∈ L, a = b := by
  by_cases hlen : 1 < L.length
  · rw [if_pos hlen]
    exact drop_one_eq_head_iff L d
  · rw [if_neg hlen]
    simp only [true_iff]
    cases L with
    | nil => simp
    | cons x t =>
      cases t with
      | nil =>
        intro a ha b hb
        simp only [List.mem_singleton] at ha hb
        subst ha; subst hb; rfl
      | cons y t' =>
        exact absurd (show 1 < (x :: y :: t').length by
          simp only [List.length_cons]
          omega) hlen

theorem consistency_flag_iff (resps : List ServerResponse) :
    ((if 1 < ((resps.filter (·.responded)).map (fun r => r.dnskey_tags.toFinset)).length then
        (((resps.filter (·.responded)).map (fun r => r.dnskey_tags.toFinset)).drop 1).any
          (fun ks => decide (ks ≠ ((resps.filter (·.responded)).map
            (fun r => r.dnskey_tags.toFinset)).headD ∅))
      else false) = false) ↔
      ∀ s ∈ resps, s.responded = true → ∀ s' ∈ resps, s'.responded = true →
        s.dnskey_tags.toFinset = s'.dnskey_tags.toFinset := by
  rw [flag_false_iff]
  constructor
  · intro h s hs hsr s' hs' hsr'
    exact h _ (List.mem_map_of_mem _ (List.mem_filter.mpr ⟨hs, hsr⟩))
      _ (List.mem_map_of_mem _ (List.mem_filter.mpr ⟨hs', hsr'⟩))
  · intro h a ha b hb
    obtain ⟨s, hs, rfl⟩ := List.mem_map.mp ha
    obtain ⟨s', hs', rfl⟩ := List.mem_map.mp hb
    have h1 := List.mem_filter.mp hs
    have h2 := List.mem_filter.mp hs'
    exact h s h1.1 h1.2 s' h2.1 h2.2

theorem rrsig_flag_iff (resps : List ServerResponse) :
    ((resps.filter (fun r =>
        r.responded && !r.has_rrsig && !r.dnskey_tags.isEmpty)).isEmpty = true) ↔
      ∀ s ∈ resps, s.responded = true → s.dnskey_tags ≠ [] → s.has_rrsig = true := by
  rw [List.isEmpty_iff, List.filter_eq_nil_iff]
  constructor
  · intro h s hs hsr htags
    by_contra hb
    have hfalse : s.has_rrsig = false := by
      cases hh : s.has_rrsig
      · rfl
      · exact absurd hh hb
    have hie : s.dnskey_tags.isEmpty = false := by
      cases ht : s.dnskey_tags.isEmpty
      · rfl
      · exact absurd (List.isEmpty_iff.mp ht) htags
    exact h s hs (by simp [hsr, hfalse, hie])
  · intro h s hs hpred
    simp only [Bool.and_eq_true, Bool.not_eq_true'] at hpred
    obtain ⟨⟨hr, hh⟩, hie⟩ := hpred
    have htags : s.dnskey_tags ≠ [] := by
      intro hnil
      rw [hnil] at hie
      simp at hie
    have htrue := h s hs hr htags
    rw [htrue] at hh
    cases hh

/-- Claim C6 (counterexample): the claim — `is_consistent` is true iff
every responding server returned the same set of DNSKEY key tags *and at
least one RRSIG* — fails when a responding server returns no DNSKEYs at
all: the source only flips `is_consistent` for a missing RRSIG when the
server returned DNSKEYs, so a single responding server with no DNSKEYs
and no RRSIG leaves `is_consistent = true`. -/
theorem claim_C6_counterexample :
    ¬ (∀ (getAuthNs : String → List (String × String))
         (queryDirect : String → String → ServerResponse) (zone : String),
         (check_consistency getAuthNs queryDirect zone).is_consistent = true ↔
           ∀ s ∈ (check_consistency getAuthNs queryDirect zone).server_responses,
             s.responded = true →
             s.has_rrsig = true ∧
             ∀ s' ∈ (check_consistency getAuthNs queryDirect zone).server_responses,
               s'.responded = true →
               s.dnskey_tags.toFinset = s'.dnskey_tags.toFinset) := by
  intro h
  have hc := (h c6NsOne c6QueryNoRrsig "example.com.").mp (by decide)
  have hr := (hc
      (((check_consistency c6NsOne c6QueryNoRrsig
          "example.com.").server_responses).headD default)
      (by decide) (by decide)).1
  exact absurd hr (by decide)

/-- Claim C6 (amended): `is_consistent` is true iff every responding
server returned the same *set* of DNSKEY key tags as every other
responding server, and every responding server that returned at least one
DNSKEY also returned at least one RRSIG.  (A responding server with no
DNSKEYs and no RRSIG does not break consistency.) -/
theorem claim_C6_amended (getAuthNs : String → List (String × String))
    (queryDirect : String → String → ServerResponse) (zone : String) :
    (check_consistency getAuthNs queryDirect zone).is_consistent = true ↔
      ((∀ s ∈ (check_consistency getAuthNs queryDirect zone).server_responses,
          s.responded = true →
          ∀ s' ∈ (check_consistency getAuthNs queryDirect zone).server_responses,
            s'.responded = true → s.dnskey_tags.toFinset = s'.dnskey_tags.toFinset) ∧
       (∀ s ∈ (check_consistency getAuthNs queryDirect zone).server_responses,
          s.responded = true → s.dnskey_tags ≠ [] → s.has_rrsig = true)) := by
  unfold check_consistency
  cases hne : (getAuthNs zone).isEmpty with
  | true => simp [hne]
  | false =>
    simp only [hne, Bool.false_eq_true, if_false]
    dsimp only
    rw [Bool.and_eq_true, Bool.not_eq_true']
    exact and_congr (consistency_flag_iff _) (rrsig_flag_iff _)

/-- A direct query returning one DNSKEY tag together with an RRSIG. -/
def c6QueryGood : String → String → ServerResponse :=
  fun ip _ =>
    { server_ip := ip, server_name := "", responded := true,
      dnskey_tags := [20326], has_rrsig := true }

/-- Claim C6 (witness): the amended characterisation applied to a
concrete consistent scenario. -/
theorem claim_C6_amended_witness :
    (check_consistency c6NsOne c6QueryGood "example.com.").is_consistent = true :=
  (claim_C6_amended c6NsOne c6QueryGood "example.com.").mpr (by decide)

/-! ## JSON export (`export/json_export.py`) -/

/-- The JSON value tree produced by `chain_to_dict` (Python dicts keep
insertion order, modelled as association lists). -/
inductive JValue where
  | null
  | bool (b : Bool)
  | num (n : Int)
  | str (s : String)
  | arr (xs : List JValue)
  | obj (fields : List (String × JValue))

/-- `_serialize_datetime`: the source emits `dt.isoformat() + "Z"`; the
model renders the epoch-seconds instant followed by `"Z"` (the claims
never inspect the rendering, only that it is some string). -/
def serialize_datetime (dt : Int) : String := toString dt ++ "Z"

/-- `_serialize_status`. -/
def serialize_status (status : ValidationStatus) : JValue :=
  .obj [("value", .str status.value), ("symbol", .str status.symbol),
        ("color", .str status.color)]

/-- `_serialize_zone`.  `b64` is the base64 encoder the source applies to
key bytes before storing them in the model fields; `now` is the instant
at which the `is_expired`/`days_until_expiry` properties are read. -/
def serialize_zone (b64 : List Nat → String) (now : Int) (zone : ZoneInfo) : JValue :=
  .obj [
    ("name", .str zone.name),
    ("parent", match zone.parent with | some p => .str p | none => .null),
    ("status", serialize_status zone.status),
    ("status_reason", .str zone.status_reason),
    ("has_dnssec", .bool zone.has_dnssec),
    ("ds_validated", .bool zone.ds_validated),
    ("dnskey_validated", .bool zone.dnskey_validated),
    ("chain_complete", .bool zone.chain_complete),
    ("dnskeys", .arr (zone.dnskeys.map (fun key => .obj [
      ("flags", .num key.flags),
      ("protocol", .num key.protocol),
      ("algorithm", .num key.algorithm),
      ("algorithm_name", .str key.algorithm_name),
      ("key_tag", .num key.key_tag),
      ("key_length", .num key.key_length),
      ("is_ksk", .bool key.is_ksk),
      ("is_zsk", .bool key.is_zsk),
      ("key_data", .str (b64 key.key_data))]))),
    ("ds_records", .arr (zone.ds_records.map (fun ds => .obj [
      ("key_tag", .num ds.key_tag),
      ("algorithm", .num ds.algorithm),
      ("algorithm_name", .str ds.algorithm_name),
      ("digest_type", .num ds.digest_type),
      ("digest_type_name", .str ds.digest_type_name),
      ("digest", .str ds.digest),
      ("validates_key", match ds.validates_key with
        | some t => .num t
        | none => .null)]))),
    ("rrsigs", .arr (zone.rrsigs.map (fun rrsig => .obj [
      ("type_covered", .str rrsig.type_covered),
      ("algorithm", .num rrsig.algorithm),
      ("algorithm_name", .str rrsig.algorithm_name),
      ("labels", .num rrsig.labels),
      ("original_ttl", .num rrsig.original_ttl),
      ("expiration", .str (serialize_datetime rrsig.expiration)),
      ("inception", .str (serialize_datetime rrsig.inception)),
      ("key_tag", .num rrsig.key_tag),
      ("signer_name", .str rrsig.signer_name),
      ("is_valid", match rrsig.is_valid with
        | some b => .bool b
        | none => .null),
      ("is_expired", .bool (rrsig.is_expired now)),
      ("days_until_expiry", .num (rrsig.days_until_expiry now))]))),
    ("additional_records", .arr (zone.additional_records.map (fun rec => .obj [
      ("record_type", .str rec.record_type),
      ("name", .str rec.name),
      ("value", .str rec.value),
      ("ttl", .num rec.ttl),
      ("is_signed", .bool rec.is_signed)])))]

/-- `chain_to_dict`. -/
def chain_to_dict (b64 : List Nat → String) (now : Int) (chain : TrustChain) : JValue :=
  .obj [
    ("metadata", .obj [
      ("target_domain", .str chain.target_domain),
      ("query_time", .str (serialize_datetime chain.query_time)),
      ("query_duration_ms", .num chain.query_duration_ms),
      ("resolver_used", .str chain.resolver_used),
      ("zone_count", .num chain.zones.length)]),
    ("overall_status", serialize_status chain.overall_status),
    ("overall_reason", .str chain.overall_reason),
    ("chain_path", .arr (chain.chain_path.map JValue.str)),
    ("zones", .arr (chain.zones.map (serialize_zone b64 now)))]

/-- Structural field lookup in a parsed JSON object. -/
def JValue.getField (j : JValue) (k : String) : Option JValue :=
  match j with
  | .obj fields => (fields.find? (fun p => p.1 == k)).map (·.2)
  | _ => none

/-- Structural string extraction. -/
def JValue.asString (j : JValue) : Option String :=
  match j with
  | .str s => some s
  | _ => none

/-- Parse a JSON array of strings. -/
def parseStrList : List JValue → Option (List String)
  | [] => some []
  | j :: rest =>
    match j.asString, parseStrList rest with
    | some s, some ss => some (s :: ss)
    | _, _ => none

/-- Structural parse of the exported `chain_path`. -/
def parse_chain_path (j : JValue) : Option (List String) :=
  (j.getField "chain_path").bind fun a =>
    match a with
    | .arr xs => parseStrList xs
    | _ => none

/-- Structural parse of the exported `overall_status` value string. -/
def parse_overall_status (j : JValue) : Option String :=
  ((j.getField "overall_status").bind (fun s => s.getField "value")).bind
    JValue.asString

/-- Structural parse of one exported zone's status value string. -/
def parse_zone_status (j : JValue) : Option String :=
  ((j.getField "status").bind (fun s => s.getField "value")).bind JValue.asString

/-- Parse the status value of every exported zone, in order. -/
def parseZoneStatusList : List JValue → Option (List String)
  | [] => some []
  | j :: rest =>
    match parse_zone_status j, parseZoneStatusList rest with
    | some s, some ss => some (s :: ss)
    | _, _ => none

/-- Structural parse of the exported per-zone status values. -/
def parse_zone_statuses (j : JValue) : Option (List String) :=
  (j.getField "zones").bind fun a =>
    match a with
    | .arr xs => parseZoneStatusList xs
    | _ => none

theorem parseStrList_map_str (l : List String) :
    parseStrList (l.map JValue.str) = some l := by
  induction l with
  | nil => rfl
  | cons s rest ih => simp [parseStrList, JValue.asString, ih]

theorem parseZoneStatusList_map (b64 : List Nat → String) (now : Int)
    (zs : List ZoneInfo) :
    parseZoneStatusList (zs.map (serialize_zone b64 now)) =
      some (zs.map (fun z => z.status.value)) := by
  induction zs with
  | nil => rfl
  | cons z rest ih =>
    have hz : parse_zone_status (serialize_zone b64 now z) = some z.status.value := rfl
    simp [parseZoneStatusList, hz, ih]

/-- Claim C9: serialising a `TrustChain` with the JSON exporter and
structurally parsing the result reproduces exactly the chain's
`chain_path`, each zone's status value and the `overall_status` value. -/
theorem claim_C9_json_roundtrip (b64 : List Nat → String) (now : Int)
    (chain : TrustChain) :
    parse_chain_path (chain_to_dict b64 now chain) = some chain.chain_path ∧
    parse_overall_status (chain_to_dict b64 now chain) =
      some chain.overall_status.value ∧
    parse_zone_statuses (chain_to_dict b64 now chain) =
      some (chain.zones.map (fun z => z.status.value)) := by
  refine ⟨?_, rfl, ?_⟩
  · have h : parse_chain_path (chain_to_dict b64 now chain) =
        parseStrList (chain.chain_path.map JValue.str) := rfl
    rw [h, parseStrList_map_str]
  · have h : parse_zone_statuses (chain_to_dict b64 now chain) =
        parseZoneStatusList (chain.zones.map (serialize_zone b64 now)) := rfl
    rw [h, parseZoneStatusList_map]
